import Mathlib

set_option linter.unusedVariables false

/-!
Shallow embedding of the maddy PAM credential-verification bridge.

Sources embedded:
- `src/auth/pam/pam.c` (`AuthPam`): embedded-call shape, no account check,
  ownership policy (a): the caller's password buffer is placed directly into
  the pre-allocated `pam_response` and handed to the backend, which frees it
  ("PAM frees pam_response for us").
- `src/cmd/maddy-pam-helper/pam.c` (`HelperPam`): as `AuthPam` plus the
  `pam_acct_mgmt` account-validity step.
- `src/internal/auth/pam/pam.c` (`InternalPam`): account check present,
  ownership policy (b): the conversation callback defensively copies the
  password into fresh backend-owned memory.
- `src/cmd/maddy-pam-helper/main.c` (`HelperMain`): standalone-process shape
  reading two lines from stdin and mapping the outcome to an exit code.

The opaque libpam backend is modelled by a `Backend` record supplying the
result code of each `pam_*` call and the number of times the module stack
invokes the conversation callback during `pam_authenticate` (zero or more,
one per prompting module).  Heap and call activity is recorded as an
explicit `Event` trace so that memory-release and session-open/close claims
can be stated about it; in particular each conversation invocation under
the "PAM frees pam_response for us" ownership policy hands the same
pre-allocated response to the backend, which frees it once per invocation.
-/

/-! ### PAM constants (Linux-PAM `security/_pam_types.h`) -/

def PAM_SUCCESS : Nat := 0
def PAM_SYSTEM_ERR : Nat := 4
def PAM_BUF_ERR : Nat := 5
def PAM_PERM_DENIED : Nat := 6
def PAM_AUTH_ERR : Nat := 7
def PAM_USER_UNKNOWN : Nat := 10
def PAM_MAXTRIES : Nat := 11
def PAM_NEW_AUTHTOK_REQD : Nat := 12
def PAM_ACCT_EXPIRED : Nat := 13
def PAM_CONV_ERR : Nat := 19
def PAM_ABORT : Nat := 26

def PAM_SILENT : Nat := 32768

def PAM_DISALLOW_NULL_AUTHTOK : Nat := 1

/-- The flags argument `PAM_SILENT|PAM_DISALLOW_NULL_AUTHTOK` passed to both
`pam_authenticate` and `pam_acct_mgmt` in every revision. -/
def authFlags : Nat := Nat.lor PAM_SILENT PAM_DISALLOW_NULL_AUTHTOK

/-- `pam_strerror` of Linux-PAM: a fixed diagnostic string for each result
code (the handle argument is ignored by the library). -/
def pam_strerror (status : Nat) : String :=
  if status = PAM_SUCCESS then "Success"
  else if status = PAM_SYSTEM_ERR then "System error"
  else if status = PAM_BUF_ERR then "Memory buffer error"
  else if status = PAM_PERM_DENIED then "Permission denied"
  else if status = PAM_AUTH_ERR then "Authentication failure"
  else if status = PAM_USER_UNKNOWN then "User not known to the underlying authentication module"
  else if status = PAM_MAXTRIES then "Have exhausted maximum number of retries for service"
  else if status = PAM_NEW_AUTHTOK_REQD then "Authentication token is no longer valid; new one required"
  else if status = PAM_ACCT_EXPIRED then "User account has expired"
  else if status = PAM_CONV_ERR then "Conversation error"
  else if status = PAM_ABORT then "Critical error - immediate abort"
  else "Unknown PAM error"

/-! ### Data model -/

/-- Identity of a heap buffer holding password text: the caller-supplied
original buffer, or a fresh copy made by the conversation adapter. -/
inductive Buf where
  | original : Buf
  | copy : Buf
deriving Repr, DecidableEq

/-- Observable heap / backend-call events, in program order. -/
inductive Event where
  | evMalloc : Bool → Event
  | evBackendFree : Buf → Event
  | evPamStart : String → String → Nat → Event
  | evPamAuth : Nat → Nat → Event
  | evPamAcct : Nat → Nat → Event
  | evPamEnd : Nat → Nat → Event
  | evConv : Nat → Nat → Event
deriving Repr, DecidableEq

/-- Behaviour of the opaque PAM module stack for one attempt.
`convInvocations` is the number of times the stack invokes the conversation
callback during `pam_authenticate` — zero or more, one per prompting
module. -/
structure Backend where
  startResult : Nat
  convInvocations : Nat
  numMsg : Nat
  prompts : List String
  authResult : Nat
  authResultConvFail : Nat
  acctResult : Nat
  endResult : Nat
deriving Repr

/-- `struct pam_response` from `security/pam_appl.h`. -/
structure pam_response where
  resp : String
  resp_retcode : Nat
deriving Repr, DecidableEq

/-- `struct error_obj` from `pam.h`: status 0/1/2 plus the failing function
name and backend diagnostic (NULL pointers modelled as `none`). -/
structure error_obj where
  status : Nat
  func_name : Option String
  error_msg : Option String
deriving Repr, DecidableEq

/-- Result of one conversation-callback invocation: the return code, the
response array handed back through `*resp`, and the allocation events the
callback performed. -/
structure ConvOut where
  retcode : Nat
  responses : List pam_response
  events : List Event
deriving Repr, DecidableEq

/-- Result of a `run_pam_auth` embedding: the returned `error_obj` plus the
event trace of the run. -/
structure AuthOut where
  ret : error_obj
  trace : List Event
deriving Repr, DecidableEq

/-- Result of the process-shape `run`: exit code, lines written to standard
error, the event trace, and the value of the local `password` variable that
was installed into the conversation response (that is, the password actually
handed to the engine; `none` when a read failure aborted the attempt). -/
structure RunOut where
  exitCode : Nat
  errLines : List String
  trace : List Event
  passwordUsed : Option String
deriving Repr, DecidableEq

/-! ### `src/internal/auth/pam/pam.c` -/

namespace InternalPam

/-- `conv_func`, lines 28–47: allocates one `pam_response`, copies the
password (`appdata_ptr`) into fresh memory, installs the single response and
returns `PAM_SUCCESS`; on either allocation failure returns `PAM_CONV_ERR`.
`num_msg` and `msg` are never consulted. -/
def conv_func (num_msg : Nat) (msg : List String) (appdata_ptr : String)
    (replyMallocOk copyMallocOk : Bool) : ConvOut :=
  if !replyMallocOk then
    ⟨PAM_CONV_ERR, [], [Event.evMalloc false]⟩
  else if !copyMallocOk then
    ⟨PAM_CONV_ERR, [], [Event.evMalloc true, Event.evMalloc false]⟩
  else
    ⟨PAM_SUCCESS, [⟨appdata_ptr, 0⟩], [Event.evMalloc true, Event.evMalloc true]⟩

/-- The result code `pam_authenticate` yields in the backend model: the
module stack returns `authResultConvFail` when it invoked the conversation
and the conversation failed, and `authResult` otherwise. -/
def effAuthResult (password : String) (replyMallocOk copyMallocOk : Bool)
    (b : Backend) : Nat :=
  if 0 < b.convInvocations ∧
      (conv_func b.numMsg b.prompts password replyMallocOk copyMallocOk).retcode ≠ PAM_SUCCESS
  then b.authResultConvFail
  else b.authResult

/-- `run_pam_auth`, lines 49–101: `pam_start`, `pam_authenticate` (flags
`PAM_SILENT|PAM_DISALLOW_NULL_AUTHTOK`), `pam_acct_mgmt` (same flags),
`pam_end`, classifying each failure as status 1 or 2.  During
`pam_authenticate` the backend invokes `conv_func` zero or more times
(ownership policy (b): each successful invocation hands over a fresh copy,
never the original, and the backend frees each copy it received). -/
def run_pam_auth (username password : String)
    (replyMallocOk copyMallocOk : Bool) (b : Backend) : AuthOut :=
  let status := b.startResult
  let t1 : List Event := [Event.evPamStart "maddy" username status]
  if status ≠ PAM_SUCCESS then
    ⟨⟨2, some "pam_start", some (pam_strerror status)⟩, t1⟩
  else
    let convOut := conv_func b.numMsg b.prompts password replyMallocOk copyMallocOk
    let convTrace : List Event :=
      List.flatten (List.replicate b.convInvocations
        (convOut.events ++ [Event.evConv b.numMsg convOut.retcode] ++
          (if convOut.retcode = PAM_SUCCESS then [Event.evBackendFree Buf.copy] else [])))
    let status2 := effAuthResult password replyMallocOk copyMallocOk b
    let t2 := t1 ++ convTrace ++ [Event.evPamAuth authFlags status2]
    if status2 ≠ PAM_SUCCESS then
      if status2 = PAM_AUTH_ERR ∨ status2 = PAM_USER_UNKNOWN then
        ⟨⟨1, some "pam_authenticate", some (pam_strerror status2)⟩, t2⟩
      else
        ⟨⟨2, some "pam_authenticate", some (pam_strerror status2)⟩, t2⟩
    else
      let status3 := b.acctResult
      let t3 := t2 ++ [Event.evPamAcct authFlags status3]
      if status3 ≠ PAM_SUCCESS then
        if status3 = PAM_AUTH_ERR ∨ status3 = PAM_USER_UNKNOWN ∨
            status3 = PAM_NEW_AUTHTOK_REQD then
          ⟨⟨1, some "pam_acct_mgmt", some (pam_strerror status3)⟩, t3⟩
        else
          ⟨⟨2, some "pam_acct_mgmt", some (pam_strerror status3)⟩, t3⟩
      else
        let status4 := b.endResult
        let t4 := t3 ++ [Event.evPamEnd status3 status4]
        if status4 ≠ PAM_SUCCESS then
          ⟨⟨2, some "pam_end", some (pam_strerror status4)⟩, t4⟩
        else
          ⟨⟨0, none, none⟩, t4⟩

end InternalPam

/-! ### `src/auth/pam/pam.c` -/

namespace AuthPam

/-- `conv_func`, lines 7–10: hands the pre-allocated response (already
holding the caller's password buffer) straight to the backend and returns
`PAM_SUCCESS`; `num_msg` and `msg` are never consulted. -/
def conv_func (num_msg : Nat) (msg : List String) (appdata_ptr : pam_response) : ConvOut :=
  ⟨PAM_SUCCESS, [appdata_ptr], []⟩

/-- `run_pam_auth`, lines 12–63: mallocs the `pam_response` up front
(status 2 `malloc` on failure), then `pam_start`, `pam_authenticate`
(flags `PAM_SILENT|PAM_DISALLOW_NULL_AUTHTOK`), `pam_end`.  No account
check.  Ownership policy (a): every conversation invocation hands the
backend the same pre-allocated response holding the original password
buffer, and the backend frees it once per invocation. -/
def run_pam_auth (username password : String) (mallocOk : Bool) (b : Backend) : AuthOut :=
  if !mallocOk then
    ⟨⟨2, some "malloc", some "Out of memory"⟩, [Event.evMalloc false]⟩
  else
    let t0 : List Event := [Event.evMalloc true]
    let status := b.startResult
    let t1 := t0 ++ [Event.evPamStart "maddy" username status]
    if status ≠ PAM_SUCCESS then
      ⟨⟨2, some "pam_start", some (pam_strerror status)⟩, t1⟩
    else
      let convTrace : List Event :=
        List.flatten (List.replicate b.convInvocations
          [Event.evConv b.numMsg PAM_SUCCESS, Event.evBackendFree Buf.original])
      let status2 := b.authResult
      let t2 := t1 ++ convTrace ++ [Event.evPamAuth authFlags status2]
      if status2 ≠ PAM_SUCCESS then
        if status2 = PAM_AUTH_ERR ∨ status2 = PAM_USER_UNKNOWN then
          ⟨⟨1, some "pam_authenticate", some (pam_strerror status2)⟩, t2⟩
        else
          ⟨⟨2, some "pam_authenticate", some (pam_strerror status2)⟩, t2⟩
      else
        let status3 := b.endResult
        let t3 := t2 ++ [Event.evPamEnd status2 status3]
        if status3 ≠ PAM_SUCCESS then
          ⟨⟨2, some "pam_end", some (pam_strerror status3)⟩, t3⟩
        else
          ⟨⟨0, none, none⟩, t3⟩

end AuthPam

/-! ### `src/cmd/maddy-pam-helper/pam.c` -/

namespace HelperPam

/-- `run_pam_auth`, lines 32–96: identical to `AuthPam.run_pam_auth` plus
the `pam_acct_mgmt` account-validity step between `pam_authenticate` and
`pam_end`; same conversation and ownership policy (a). -/
def run_pam_auth (username password : String) (mallocOk : Bool) (b : Backend) : AuthOut :=
  if !mallocOk then
    ⟨⟨2, some "malloc", some "Out of memory"⟩, [Event.evMalloc false]⟩
  else
    let t0 : List Event := [Event.evMalloc true]
    let status := b.startResult
    let t1 := t0 ++ [Event.evPamStart "maddy" username status]
    if status ≠ PAM_SUCCESS then
      ⟨⟨2, some "pam_start", some (pam_strerror status)⟩, t1⟩
    else
      let convTrace : List Event :=
        List.flatten (List.replicate b.convInvocations
          [Event.evConv b.numMsg PAM_SUCCESS, Event.evBackendFree Buf.original])
      let status2 := b.authResult
      let t2 := t1 ++ convTrace ++ [Event.evPamAuth authFlags status2]
      if status2 ≠ PAM_SUCCESS then
        if status2 = PAM_AUTH_ERR ∨ status2 = PAM_USER_UNKNOWN then
          ⟨⟨1, some "pam_authenticate", some (pam_strerror status2)⟩, t2⟩
        else
          ⟨⟨2, some "pam_authenticate", some (pam_strerror status2)⟩, t2⟩
      else
        let status3 := b.acctResult
        let t3 := t2 ++ [Event.evPamAcct authFlags status3]
        if status3 ≠ PAM_SUCCESS then
          if status3 = PAM_AUTH_ERR ∨ status3 = PAM_USER_UNKNOWN ∨
              status3 = PAM_NEW_AUTHTOK_REQD then
            ⟨⟨1, some "pam_acct_mgmt", some (pam_strerror status3)⟩, t3⟩
          else
            ⟨⟨2, some "pam_acct_mgmt", some (pam_strerror status3)⟩, t3⟩
        else
          let status4 := b.endResult
          let t4 := t3 ++ [Event.evPamEnd status3 status4]
          if status4 ≠ PAM_SUCCESS then
            ⟨⟨2, some "pam_end", some (pam_strerror status4)⟩, t4⟩
          else
            ⟨⟨0, none, none⟩, t4⟩

end HelperPam

/-! ### `src/cmd/maddy-pam-helper/main.c` -/

/-- The trailing-terminator cut of `main.c` lines 34–40: `getline` returned
`len > 0` characters and the code writes NUL over the character at index
`len-1`, i.e. unconditionally removes the LAST character of the raw line
(assumed to be the newline). -/
def cut_trailing (s : String) : String :=
  if s.length > 0 then s.take (s.length - 1) else s

namespace HelperMain

/-- `run`, lines 18–74: reads two raw lines via `getline` (each element of
`stdin` is one raw line including its terminator when present; a missing
element is a read failure reported via `perror`), cuts the trailing
character of each, then `pam_start`, `malloc` of the response, and
`pam_authenticate` / `pam_end` with the same classification as the embedded
shape; status-1 rejections write nothing to standard error. -/
def run (stdin : List String) (ioErrMsg : String) (mallocOk : Bool) (b : Backend) : RunOut :=
  match stdin[0]? with
  | none => ⟨2, ["getline username: " ++ ioErrMsg], [], none⟩
  | some rawUser =>
    match stdin[1]? with
    | none => ⟨2, ["getline password: " ++ ioErrMsg], [], none⟩
    | some rawPass =>
      let username := cut_trailing rawUser
      let password := cut_trailing rawPass
      let status := b.startResult
      let t1 : List Event := [Event.evPamStart "maddy" username status]
      if status ≠ PAM_SUCCESS then
        ⟨2, ["pam_start: " ++ pam_strerror status], t1, some password⟩
      else if !mallocOk then
        ⟨2, ["malloc returned NULL"], t1 ++ [Event.evMalloc false], some password⟩
      else
        let convTrace : List Event :=
          List.flatten (List.replicate b.convInvocations
            [Event.evConv b.numMsg PAM_SUCCESS, Event.evBackendFree Buf.original])
        let status2 := b.authResult
        let t2 := t1 ++ [Event.evMalloc true] ++ convTrace ++
          [Event.evPamAuth authFlags status2]
        if status2 ≠ PAM_SUCCESS then
          if status2 = PAM_AUTH_ERR ∨ status2 = PAM_USER_UNKNOWN then
            ⟨1, [], t2, some password⟩
          else
            ⟨2, ["pam_authenticate: " ++ pam_strerror status2], t2, some password⟩
        else
          let status3 := b.endResult
          let t3 := t2 ++ [Event.evPamEnd status2 status3]
          if status3 ≠ PAM_SUCCESS then
            ⟨2, ["pam_end: " ++ pam_strerror status3], t3, some password⟩
          else
            ⟨0, [], t3, some password⟩

end HelperMain

/-! ### Trace observations -/

/-- Is the event a release of the given buffer by the backend? -/
def isFreeOf (bf : Buf) (e : Event) : Bool :=
  match e with
  | Event.evBackendFree x => x == bf
  | _ => false

/-- Number of releases of a given buffer in a trace. -/
def freeCount (bf : Buf) (t : List Event) : Nat := t.countP (isFreeOf bf)

/-- Every `pam_authenticate` call in the trace carries the given flags. -/
def allAuthFlagsAre (f : Nat) (t : List Event) : Bool :=
  t.all fun e =>
    match e with
    | Event.evPamAuth fl _ => fl == f
    | _ => true

/-- Counting over the concatenation of `k` copies of a block multiplies the
block's count by `k`. -/
theorem countP_flatten_replicate {α : Type} (p : α → Bool) (k : Nat) (l : List α) :
    (List.flatten (List.replicate k l)).countP p = k * l.countP p := by
  induction k with
  | zero => simp
  | succ n ih =>
    simp [List.replicate_succ, List.countP_append, ih, Nat.succ_mul, Nat.add_comm]

/-- A predicate holds on the concatenation of `k` copies of a block iff the
block is empty of counterexamples or `k = 0`. -/
theorem all_flatten_replicate {α : Type} (p : α → Bool) (k : Nat) (l : List α) :
    (List.flatten (List.replicate k l)).all p = (k == 0 || l.all p) := by
  induction k with
  | zero => simp
  | succ n ih =>
    cases h : l.all p <;> simp [List.replicate_succ, List.all_append, ih, h]

/-! ### Claims -/

/-- C9, counterexample: with two prompt messages, the conversation adapter
allocates and hands back a single response structure, not one per prompt, so
it does not "respond to every prompt message". -/
theorem c9_counterexample :
    (InternalPam.conv_func 2 ["Password: ", "Verification code: "] "hunter2"
        true true).responses.length = 1 ∧
    ¬ (InternalPam.conv_func 2 ["Password: ", "Verification code: "] "hunter2"
        true true).responses.length = 2 := by
  decide

/-- C9, amended: on every invocation, whatever the prompt count and content,
the conversation adapter returns the success code together with exactly ONE
response carrying the previously supplied password, never inspecting the
prompts; only a single-prompt conversation therefore receives a response for
each of its prompts. -/
theorem c9_single_response_ignoring_prompts :
    (∀ num_msg msg p, InternalPam.conv_func num_msg msg p true true =
        ⟨PAM_SUCCESS, [⟨p, 0⟩], [Event.evMalloc true, Event.evMalloc true]⟩) ∧
    (∀ num_msg msg r, AuthPam.conv_func num_msg msg r = ⟨PAM_SUCCESS, [r], []⟩) := by
  refine ⟨fun n m p => rfl, fun n m r => rfl⟩

/-- C4, failing input: a final password line `"abc"` lacking its line
terminator is not passed intact — the unconditional write of NUL over the
last character cuts a content byte, so the engine receives `"ab"`. (A
properly terminated line is stripped of exactly its newline.) -/
theorem c4_unterminated_line_truncated :
    cut_trailing "secret\n" = "secret" ∧
    cut_trailing "abc" = "ab" ∧
    (HelperMain.run ["alice\n", "abc"] "no error" true
        ⟨PAM_SUCCESS, 1, 1, ["Password: "], PAM_AUTH_ERR, PAM_CONV_ERR,
          PAM_SUCCESS, PAM_SUCCESS⟩).passwordUsed = some "ab" ∧
    some "ab" ≠ some "abc" := by
  decide

/-- C1, counterexample: in the embedded-call shape of `src/auth/pam/pam.c`
(ownership transferred to the backend), a `pam_start` failure returns from
`run_pam_auth` with the password buffer released zero times (leaked: the
response holding it was never handed to the backend), and a successful open
whose module stack invokes the conversation twice releases the same
handed-over buffer twice (double-free) — in neither case exactly once. -/
theorem c1_counterexample :
    ((AuthPam.run_pam_auth "alice" "hunter2" true
        ⟨PAM_ABORT, 0, 0, [], PAM_SUCCESS, PAM_SUCCESS, PAM_SUCCESS,
          PAM_SUCCESS⟩).ret.status = 2 ∧
      freeCount Buf.original
        (AuthPam.run_pam_auth "alice" "hunter2" true
          ⟨PAM_ABORT, 0, 0, [], PAM_SUCCESS, PAM_SUCCESS, PAM_SUCCESS,
            PAM_SUCCESS⟩).trace = 0) ∧
    (freeCount Buf.original
        (AuthPam.run_pam_auth "alice" "hunter2" true
          ⟨PAM_SUCCESS, 2, 1, ["Password: "], PAM_SUCCESS, PAM_SUCCESS,
            PAM_SUCCESS, PAM_SUCCESS⟩).trace = 2 ∧
      ¬ freeCount Buf.original
        (AuthPam.run_pam_auth "alice" "hunter2" true
          ⟨PAM_SUCCESS, 2, 1, ["Password: "], PAM_SUCCESS, PAM_SUCCESS,
            PAM_SUCCESS, PAM_SUCCESS⟩).trace = 1) := by
  decide

/-- C1, amended: under ownership policy (a) the number of releases of the
caller's password buffer equals the number of conversation invocations the
backend performs, on runs where the engine allocation and the session open
succeeded, and is zero on the allocation-failure and open-failure exits —
so the buffer is released exactly once only when the backend invokes the
conversation exactly once; zero invocations leak it and two or more
invocations double-free it.  Under policy (b) the engine never releases the
caller's buffer before returning; each conversation invocation hands over a
fresh copy, and the backend releases one copy per invocation. -/
theorem c1_release_per_ownership_policy :
    (∀ u p b, freeCount Buf.original (AuthPam.run_pam_auth u p true b).trace =
        if b.startResult = PAM_SUCCESS then b.convInvocations else 0) ∧
    (∀ u p b, freeCount Buf.original (AuthPam.run_pam_auth u p false b).trace = 0) ∧
    (∀ u p rOk cOk b,
        freeCount Buf.original (InternalPam.run_pam_auth u p rOk cOk b).trace = 0) ∧
    (∀ u p b, freeCount Buf.copy (InternalPam.run_pam_auth u p true true b).trace =
        if b.startResult = PAM_SUCCESS then b.convInvocations else 0) := by
  refine ⟨?_, ?_, ?_, ?_⟩
  · intro u p b
    by_cases hs : b.startResult = PAM_SUCCESS <;>
      simp [AuthPam.run_pam_auth, freeCount, isFreeOf, hs,
        apply_ite AuthOut.trace, List.countP_append, List.countP_cons,
        countP_flatten_replicate, -List.countP_eq_zero] <;>
      split_ifs <;>
      simp_all [List.countP_append, List.countP_cons, countP_flatten_replicate,
        -List.countP_eq_zero, isFreeOf, PAM_SUCCESS]
  · intro u p b
    simp [AuthPam.run_pam_auth, freeCount, isFreeOf]
  · intro u p rOk cOk b
    by_cases hs : b.startResult = PAM_SUCCESS <;>
      cases rOk <;> cases cOk <;>
      simp [InternalPam.run_pam_auth, InternalPam.conv_func,
        InternalPam.effAuthResult, freeCount, isFreeOf, hs,
        apply_ite AuthOut.trace, List.countP_append, List.countP_cons,
        countP_flatten_replicate, -List.countP_eq_zero] <;>
      split_ifs <;>
      simp_all [List.countP_append, List.countP_cons, countP_flatten_replicate,
        -List.countP_eq_zero, isFreeOf, PAM_SUCCESS, PAM_CONV_ERR, PAM_AUTH_ERR,
        PAM_USER_UNKNOWN, PAM_NEW_AUTHTOK_REQD]
  · intro u p b
    by_cases hs : b.startResult = PAM_SUCCESS <;>
      simp [InternalPam.run_pam_auth, InternalPam.conv_func,
        InternalPam.effAuthResult, freeCount, isFreeOf, hs,
        apply_ite AuthOut.trace, List.countP_append, List.countP_cons,
        countP_flatten_replicate, -List.countP_eq_zero] <;>
      split_ifs <;>
      simp_all [List.countP_append, List.countP_cons, countP_flatten_replicate,
        -List.countP_eq_zero, isFreeOf, PAM_SUCCESS, PAM_CONV_ERR, PAM_AUTH_ERR,
        PAM_USER_UNKNOWN, PAM_NEW_AUTHTOK_REQD]

/-- C3: an unknown-username run (`pam_authenticate` yields
`PAM_USER_UNKNOWN`) and a known-username-wrong-password run
(`PAM_AUTH_ERR`) are externally indistinguishable in the process shape:
both exit with code 1 and an empty standard error, whatever the input
lines and the rest of the backend behaviour. -/
theorem c3_rejection_indistinguishable :
    ∀ (stdin1 stdin2 : List String) (ru1 rp1 ru2 rp2 io1 io2 : String)
      (b1 b2 : Backend),
      stdin1[0]? = some ru1 → stdin1[1]? = some rp1 →
      stdin2[0]? = some ru2 → stdin2[1]? = some rp2 →
      b1.startResult = PAM_SUCCESS → b2.startResult = PAM_SUCCESS →
      b1.authResult = PAM_USER_UNKNOWN → b2.authResult = PAM_AUTH_ERR →
      (HelperMain.run stdin1 io1 true b1).exitCode = 1 ∧
      (HelperMain.run stdin1 io1 true b1).errLines = [] ∧
      (HelperMain.run stdin2 io2 true b2).exitCode = 1 ∧
      (HelperMain.run stdin2 io2 true b2).errLines = [] ∧
      ((HelperMain.run stdin1 io1 true b1).exitCode,
        (HelperMain.run stdin1 io1 true b1).errLines) =
      ((HelperMain.run stdin2 io2 true b2).exitCode,
        (HelperMain.run stdin2 io2 true b2).errLines) := by
  intro stdin1 stdin2 ru1 rp1 ru2 rp2 io1 io2 b1 b2 h10 h11 h20 h21 hs1 hs2 ha1 ha2
  refine ⟨?_, ?_, ?_, ?_, ?_⟩ <;>
    simp [HelperMain.run, h10, h11, h20, h21, hs1, hs2, ha1, ha2,
      PAM_SUCCESS, PAM_AUTH_ERR, PAM_USER_UNKNOWN]

/-- C3, witness: concrete unknown-user and wrong-password runs both exit 1
with empty stderr. -/
theorem c3_witness :
    (HelperMain.run ["ghost\n", "anything\n"] "e" true
        ⟨PAM_SUCCESS, 1, 1, ["Password: "], PAM_USER_UNKNOWN, PAM_CONV_ERR,
          PAM_SUCCESS, PAM_SUCCESS⟩).exitCode = 1 ∧
    (HelperMain.run ["ghost\n", "anything\n"] "e" true
        ⟨PAM_SUCCESS, 1, 1, ["Password: "], PAM_USER_UNKNOWN, PAM_CONV_ERR,
          PAM_SUCCESS, PAM_SUCCESS⟩).errLines = [] ∧
    (HelperMain.run ["alice\n", "wrongpass\n"] "e" true
        ⟨PAM_SUCCESS, 1, 1, ["Password: "], PAM_AUTH_ERR, PAM_CONV_ERR,
          PAM_SUCCESS, PAM_SUCCESS⟩).exitCode = 1 ∧
    (HelperMain.run ["alice\n", "wrongpass\n"] "e" true
        ⟨PAM_SUCCESS, 1, 1, ["Password: "], PAM_AUTH_ERR, PAM_CONV_ERR,
          PAM_SUCCESS, PAM_SUCCESS⟩).errLines = [] ∧
    ((HelperMain.run ["ghost\n", "anything\n"] "e" true
        ⟨PAM_SUCCESS, 1, 1, ["Password: "], PAM_USER_UNKNOWN, PAM_CONV_ERR,
          PAM_SUCCESS, PAM_SUCCESS⟩).exitCode,
      (HelperMain.run ["ghost\n", "anything\n"] "e" true
        ⟨PAM_SUCCESS, 1, 1, ["Password: "], PAM_USER_UNKNOWN, PAM_CONV_ERR,
          PAM_SUCCESS, PAM_SUCCESS⟩).errLines) =
    ((HelperMain.run ["alice\n", "wrongpass\n"] "e" true
        ⟨PAM_SUCCESS, 1, 1, ["Password: "], PAM_AUTH_ERR, PAM_CONV_ERR,
          PAM_SUCCESS, PAM_SUCCESS⟩).exitCode,
      (HelperMain.run ["alice\n", "wrongpass\n"] "e" true
        ⟨PAM_SUCCESS, 1, 1, ["Password: "], PAM_AUTH_ERR, PAM_CONV_ERR,
          PAM_SUCCESS, PAM_SUCCESS⟩).errLines) :=
  c3_rejection_indistinguishable
    ["ghost\n", "anything\n"] ["alice\n", "wrongpass\n"]
    "ghost\n" "anything\n" "alice\n" "wrongpass\n" "e" "e"
    ⟨PAM_SUCCESS, 1, 1, ["Password: "], PAM_USER_UNKNOWN, PAM_CONV_ERR,
      PAM_SUCCESS, PAM_SUCCESS⟩
    ⟨PAM_SUCCESS, 1, 1, ["Password: "], PAM_AUTH_ERR, PAM_CONV_ERR,
      PAM_SUCCESS, PAM_SUCCESS⟩
    rfl rfl rfl rfl rfl rfl rfl rfl

/-- C5: every backend failure outside the rejection codes yields status 2
tagged with exactly the operation that failed — `pam_start`,
`pam_authenticate`, `pam_acct_mgmt` or `pam_end` — carrying that
operation's backend diagnostic; in the process shape the same failures give
exit code 2 and one stderr line naming that operation. -/
theorem c5_system_error_tags :
    (∀ u p rOk cOk b, b.startResult ≠ PAM_SUCCESS →
        (InternalPam.run_pam_auth u p rOk cOk b).ret =
          ⟨2, some "pam_start", some (pam_strerror b.startResult)⟩) ∧
    (∀ u p b, b.startResult = PAM_SUCCESS →
        b.authResult ≠ PAM_SUCCESS → b.authResult ≠ PAM_AUTH_ERR →
        b.authResult ≠ PAM_USER_UNKNOWN →
        (InternalPam.run_pam_auth u p true true b).ret =
          ⟨2, some "pam_authenticate", some (pam_strerror b.authResult)⟩) ∧
    (∀ u p b, b.startResult = PAM_SUCCESS → b.authResult = PAM_SUCCESS →
        b.acctResult ≠ PAM_SUCCESS → b.acctResult ≠ PAM_AUTH_ERR →
        b.acctResult ≠ PAM_USER_UNKNOWN → b.acctResult ≠ PAM_NEW_AUTHTOK_REQD →
        (InternalPam.run_pam_auth u p true true b).ret =
          ⟨2, some "pam_acct_mgmt", some (pam_strerror b.acctResult)⟩) ∧
    (∀ u p b, b.startResult = PAM_SUCCESS → b.authResult = PAM_SUCCESS →
        b.acctResult = PAM_SUCCESS → b.endResult ≠ PAM_SUCCESS →
        (InternalPam.run_pam_auth u p true true b).ret =
          ⟨2, some "pam_end", some (pam_strerror b.endResult)⟩) ∧
    (∀ stdin ru rp io mOk b, stdin[0]? = some ru → stdin[1]? = some rp →
        b.startResult ≠ PAM_SUCCESS →
        (HelperMain.run stdin io mOk b).exitCode = 2 ∧
        (HelperMain.run stdin io mOk b).errLines =
          ["pam_start: " ++ pam_strerror b.startResult]) ∧
    (∀ stdin ru rp io b, stdin[0]? = some ru → stdin[1]? = some rp →
        b.startResult = PAM_SUCCESS →
        b.authResult ≠ PAM_SUCCESS → b.authResult ≠ PAM_AUTH_ERR →
        b.authResult ≠ PAM_USER_UNKNOWN →
        (HelperMain.run stdin io true b).exitCode = 2 ∧
        (HelperMain.run stdin io true b).errLines =
          ["pam_authenticate: " ++ pam_strerror b.authResult]) ∧
    (∀ stdin ru rp io b, stdin[0]? = some ru → stdin[1]? = some rp →
        b.startResult = PAM_SUCCESS → b.authResult = PAM_SUCCESS →
        b.endResult ≠ PAM_SUCCESS →
        (HelperMain.run stdin io true b).exitCode = 2 ∧
        (HelperMain.run stdin io true b).errLines =
          ["pam_end: " ++ pam_strerror b.endResult]) := by
  refine ⟨?_, ?_, ?_, ?_, ?_, ?_, ?_⟩
  · intro u p rOk cOk b hs
    simp [InternalPam.run_pam_auth, hs]
  · intro u p b hs h0 h7 h10
    simp [InternalPam.run_pam_auth, InternalPam.effAuthResult,
      InternalPam.conv_func, hs, h0, h7, h10]
  · intro u p b hs ha h0 h7 h10 h12
    simp [InternalPam.run_pam_auth, InternalPam.effAuthResult,
      InternalPam.conv_func, hs, ha, h0, h7, h10, h12]
  · intro u p b hs ha hacct he
    simp [InternalPam.run_pam_auth, InternalPam.effAuthResult,
      InternalPam.conv_func, hs, ha, hacct, he]
  · intro stdin ru rp io mOk b h0 h1 hs
    constructor <;> simp [HelperMain.run, h0, h1, hs]
  · intro stdin ru rp io b h0 h1 hs ha0 ha7 ha10
    constructor <;> simp [HelperMain.run, h0, h1, hs, ha0, ha7, ha10]
  · intro stdin ru rp io b h0 h1 hs ha he
    constructor <;> simp [HelperMain.run, h0, h1, hs, ha, he]

/-- C5, witness: each failing operation realised at a concrete backend. -/
theorem c5_witness :
    (InternalPam.run_pam_auth "alice" "pw" true true
        ⟨PAM_ABORT, 0, 0, [], PAM_SUCCESS, PAM_SUCCESS, PAM_SUCCESS,
          PAM_SUCCESS⟩).ret =
      ⟨2, some "pam_start", some (pam_strerror PAM_ABORT)⟩ ∧
    (InternalPam.run_pam_auth "alice" "pw" true true
        ⟨PAM_SUCCESS, 1, 1, ["Password: "], PAM_SYSTEM_ERR, PAM_CONV_ERR,
          PAM_SUCCESS, PAM_SUCCESS⟩).ret =
      ⟨2, some "pam_authenticate", some (pam_strerror PAM_SYSTEM_ERR)⟩ ∧
    (InternalPam.run_pam_auth "alice" "pw" true true
        ⟨PAM_SUCCESS, 1, 1, ["Password: "], PAM_SUCCESS, PAM_CONV_ERR,
          PAM_PERM_DENIED, PAM_SUCCESS⟩).ret =
      ⟨2, some "pam_acct_mgmt", some (pam_strerror PAM_PERM_DENIED)⟩ ∧
    (InternalPam.run_pam_auth "alice" "pw" true true
        ⟨PAM_SUCCESS, 1, 1, ["Password: "], PAM_SUCCESS, PAM_CONV_ERR,
          PAM_SUCCESS, PAM_ABORT⟩).ret =
      ⟨2, some "pam_end", some (pam_strerror PAM_ABORT)⟩ ∧
    (HelperMain.run ["alice\n", "pw\n"] "e" true
        ⟨PAM_ABORT, 0, 0, [], PAM_SUCCESS, PAM_SUCCESS, PAM_SUCCESS,
          PAM_SUCCESS⟩).errLines =
      ["pam_start: " ++ pam_strerror PAM_ABORT] ∧
    (HelperMain.run ["alice\n", "pw\n"] "e" true
        ⟨PAM_SUCCESS, 1, 1, ["Password: "], PAM_MAXTRIES, PAM_CONV_ERR,
          PAM_SUCCESS, PAM_SUCCESS⟩).errLines =
      ["pam_authenticate: " ++ pam_strerror PAM_MAXTRIES] ∧
    (HelperMain.run ["alice\n", "pw\n"] "e" true
        ⟨PAM_SUCCESS, 1, 1, ["Password: "], PAM_SUCCESS, PAM_CONV_ERR,
          PAM_SUCCESS, PAM_ABORT⟩).errLines =
      ["pam_end: " ++ pam_strerror PAM_ABORT] :=
  ⟨c5_system_error_tags.1 "alice" "pw" true true _ (by decide),
   c5_system_error_tags.2.1 "alice" "pw" _ (by decide) (by decide) (by decide)
     (by decide),
   c5_system_error_tags.2.2.1 "alice" "pw" _ (by decide) (by decide) (by decide)
     (by decide) (by decide) (by decide),
   c5_system_error_tags.2.2.2.1 "alice" "pw" _ (by decide) (by decide)
     (by decide) (by decide),
   (c5_system_error_tags.2.2.2.2.1 ["alice\n", "pw\n"] "alice\n" "pw\n" "e" true _
     (by decide) (by decide) (by decide)).2,
   (c5_system_error_tags.2.2.2.2.2.1 ["alice\n", "pw\n"] "alice\n" "pw\n" "e" _
     (by decide) (by decide) (by decide) (by decide) (by decide) (by decide)).2,
   (c5_system_error_tags.2.2.2.2.2.2 ["alice\n", "pw\n"] "alice\n" "pw\n" "e" _
     (by decide) (by decide) (by decide) (by decide) (by decide)).2⟩

/-- C6, counterexample: a user whose account the backend reports as expired
via the standard account-expired code (`PAM_ACCT_EXPIRED`), with a correct
password and the account check enabled, yields status 2 (`SystemError`), not
the claimed rejection status 1; with the check disabled the run succeeds. -/
theorem c6_counterexample :
    (InternalPam.run_pam_auth "carol" "correcthorse" true true
        ⟨PAM_SUCCESS, 1, 1, ["Password: "], PAM_SUCCESS, PAM_CONV_ERR,
          PAM_ACCT_EXPIRED, PAM_SUCCESS⟩).ret.status = 2 ∧
    ¬ (InternalPam.run_pam_auth "carol" "correcthorse" true true
        ⟨PAM_SUCCESS, 1, 1, ["Password: "], PAM_SUCCESS, PAM_CONV_ERR,
          PAM_ACCT_EXPIRED, PAM_SUCCESS⟩).ret.status = 1 ∧
    (HelperPam.run_pam_auth "carol" "correcthorse" true
        ⟨PAM_SUCCESS, 1, 1, ["Password: "], PAM_SUCCESS, PAM_CONV_ERR,
          PAM_ACCT_EXPIRED, PAM_SUCCESS⟩).ret.status = 2 ∧
    (AuthPam.run_pam_auth "carol" "correcthorse" true
        ⟨PAM_SUCCESS, 1, 1, ["Password: "], PAM_SUCCESS, PAM_CONV_ERR,
          PAM_ACCT_EXPIRED, PAM_SUCCESS⟩).ret.status = 0 := by
  decide

/-- C6, amended: with the account check enabled, the account-check step maps
the codes `PAM_AUTH_ERR`, `PAM_USER_UNKNOWN` and `PAM_NEW_AUTHTOK_REQD` to
the rejection status 1, and every other non-success code — including the
account-expired code `PAM_ACCT_EXPIRED` — to status 2 tagged
`pam_acct_mgmt`; an expired account with a correct password therefore exits
1 only when the backend reports the expiry through one of the three mapped
codes, and exits 2 when it reports `PAM_ACCT_EXPIRED`.  With the check
disabled the same user's attempt succeeds (exit 0). -/
theorem c6_account_check_mapping :
    (∀ u p b, b.startResult = PAM_SUCCESS → b.authResult = PAM_SUCCESS →
        (b.acctResult = PAM_AUTH_ERR ∨ b.acctResult = PAM_USER_UNKNOWN ∨
          b.acctResult = PAM_NEW_AUTHTOK_REQD) →
        (InternalPam.run_pam_auth u p true true b).ret.status = 1 ∧
        (HelperPam.run_pam_auth u p true b).ret.status = 1) ∧
    (∀ u p b, b.startResult = PAM_SUCCESS → b.authResult = PAM_SUCCESS →
        b.acctResult ≠ PAM_SUCCESS → b.acctResult ≠ PAM_AUTH_ERR →
        b.acctResult ≠ PAM_USER_UNKNOWN → b.acctResult ≠ PAM_NEW_AUTHTOK_REQD →
        (InternalPam.run_pam_auth u p true true b).ret =
          ⟨2, some "pam_acct_mgmt", some (pam_strerror b.acctResult)⟩ ∧
        (HelperPam.run_pam_auth u p true b).ret =
          ⟨2, some "pam_acct_mgmt", some (pam_strerror b.acctResult)⟩) ∧
    (∀ u p b, b.startResult = PAM_SUCCESS → b.authResult = PAM_SUCCESS →
        b.endResult = PAM_SUCCESS →
        (AuthPam.run_pam_auth u p true b).ret.status = 0) := by
  refine ⟨?_, ?_, ?_⟩
  · intro u p b hs ha hacct
    rcases hacct with h | h | h <;>
      constructor <;>
      simp [InternalPam.run_pam_auth, InternalPam.effAuthResult,
        InternalPam.conv_func, HelperPam.run_pam_auth, hs, ha, h,
        PAM_SUCCESS, PAM_AUTH_ERR, PAM_USER_UNKNOWN, PAM_NEW_AUTHTOK_REQD]
  · intro u p b hs ha h0 h7 h10 h12
    constructor <;>
      simp [InternalPam.run_pam_auth, InternalPam.effAuthResult,
        InternalPam.conv_func, HelperPam.run_pam_auth, hs, ha, h0, h7, h10, h12]
  · intro u p b hs ha he
    simp [AuthPam.run_pam_auth, hs, ha, he, PAM_SUCCESS]

/-- C6, witness: expiry reported as `PAM_NEW_AUTHTOK_REQD` is rejected with
status 1 when the check is enabled; `PAM_ACCT_EXPIRED` yields the tagged
status 2; with the check disabled the attempt succeeds. -/
theorem c6_witness :
    (InternalPam.run_pam_auth "carol" "correcthorse" true true
        ⟨PAM_SUCCESS, 1, 1, ["Password: "], PAM_SUCCESS, PAM_CONV_ERR,
          PAM_NEW_AUTHTOK_REQD, PAM_SUCCESS⟩).ret.status = 1 ∧
    (InternalPam.run_pam_auth "carol" "correcthorse" true true
        ⟨PAM_SUCCESS, 1, 1, ["Password: "], PAM_SUCCESS, PAM_CONV_ERR,
          PAM_ACCT_EXPIRED, PAM_SUCCESS⟩).ret =
      ⟨2, some "pam_acct_mgmt", some (pam_strerror PAM_ACCT_EXPIRED)⟩ ∧
    (AuthPam.run_pam_auth "carol" "correcthorse" true
        ⟨PAM_SUCCESS, 1, 1, ["Password: "], PAM_SUCCESS, PAM_CONV_ERR,
          PAM_ACCT_EXPIRED, PAM_SUCCESS⟩).ret.status = 0 :=
  ⟨(c6_account_check_mapping.1 "carol" "correcthorse" _ (by decide) (by decide)
      (by decide)).1,
   (c6_account_check_mapping.2.1 "carol" "correcthorse" _ (by decide) (by decide)
      (by decide) (by decide) (by decide) (by decide)).1,
   c6_account_check_mapping.2.2 "carol" "correcthorse" _ (by decide) (by decide)
      (by decide)⟩

/-- C7: every `pam_authenticate` call, in every shape, carries exactly the
flags `PAM_SILENT|PAM_DISALLOW_NULL_AUTHTOK`; consequently, against a
backend that honours the reject-empty-credential flag (modelled by the
hypothesis that its verification of the empty password yields
`PAM_AUTH_ERR`), an empty password gives the rejection status 1 and never
status 0, whatever the username. -/
theorem c7_empty_password_never_succeeds :
    (∀ u p rOk cOk b,
        allAuthFlagsAre authFlags (InternalPam.run_pam_auth u p rOk cOk b).trace = true) ∧
    (∀ u p mOk b,
        allAuthFlagsAre authFlags (AuthPam.run_pam_auth u p mOk b).trace = true) ∧
    (∀ u p mOk b,
        allAuthFlagsAre authFlags (HelperPam.run_pam_auth u p mOk b).trace = true) ∧
    (∀ stdin io mOk b,
        allAuthFlagsAre authFlags (HelperMain.run stdin io mOk b).trace = true) ∧
    (∀ u b, b.startResult = PAM_SUCCESS → b.authResult = PAM_AUTH_ERR →
        (InternalPam.run_pam_auth u "" true true b).ret.status = 1 ∧
        ¬ (InternalPam.run_pam_auth u "" true true b).ret.status = 0) := by
  refine ⟨?_, ?_, ?_, ?_, ?_⟩
  · intro u p rOk cOk b
    by_cases hs : b.startResult = PAM_SUCCESS <;>
      cases rOk <;> cases cOk <;>
      simp [InternalPam.run_pam_auth, InternalPam.conv_func,
        InternalPam.effAuthResult, allAuthFlagsAre, hs,
        apply_ite AuthOut.trace, List.all_append, List.all_cons,
        all_flatten_replicate, -List.all_eq_true] <;>
      split_ifs <;>
      simp_all [List.all_append, List.all_cons, all_flatten_replicate,
        -List.all_eq_true, PAM_SUCCESS, PAM_CONV_ERR, PAM_AUTH_ERR,
        PAM_USER_UNKNOWN, PAM_NEW_AUTHTOK_REQD]
  · intro u p mOk b
    by_cases hs : b.startResult = PAM_SUCCESS <;> cases mOk <;>
      simp [AuthPam.run_pam_auth, allAuthFlagsAre, hs,
        apply_ite AuthOut.trace, List.all_append, List.all_cons,
        all_flatten_replicate, -List.all_eq_true] <;>
      split_ifs <;>
      simp_all [List.all_append, List.all_cons, all_flatten_replicate,
        -List.all_eq_true, PAM_SUCCESS, PAM_AUTH_ERR, PAM_USER_UNKNOWN]
  · intro u p mOk b
    by_cases hs : b.startResult = PAM_SUCCESS <;> cases mOk <;>
      simp [HelperPam.run_pam_auth, allAuthFlagsAre, hs,
        apply_ite AuthOut.trace, List.all_append, List.all_cons,
        all_flatten_replicate, -List.all_eq_true] <;>
      split_ifs <;>
      simp_all [List.all_append, List.all_cons, all_flatten_replicate,
        -List.all_eq_true, PAM_SUCCESS, PAM_AUTH_ERR, PAM_USER_UNKNOWN]
  · intro stdin io mOk b
    cases h0 : stdin[0]? <;> cases h1 : stdin[1]? <;>
      by_cases hs : b.startResult = PAM_SUCCESS <;> cases mOk <;>
      simp [HelperMain.run, allAuthFlagsAre, hs, h0, h1,
        apply_ite RunOut.trace, List.all_append, List.all_cons,
        all_flatten_replicate, -List.all_eq_true] <;>
      split_ifs <;>
      simp_all [List.all_append, List.all_cons, all_flatten_replicate,
        -List.all_eq_true, PAM_SUCCESS, PAM_AUTH_ERR, PAM_USER_UNKNOWN]
  · intro u b hs ha
    constructor <;>
      simp [InternalPam.run_pam_auth, InternalPam.effAuthResult,
        InternalPam.conv_func, hs, ha, PAM_SUCCESS, PAM_AUTH_ERR]

/-- C7, witness: a concrete honouring backend rejects the empty password. -/
theorem c7_witness :
    (InternalPam.run_pam_auth "alice" "" true true
        ⟨PAM_SUCCESS, 1, 1, ["Password: "], PAM_AUTH_ERR, PAM_CONV_ERR,
          PAM_SUCCESS, PAM_SUCCESS⟩).ret.status = 1 ∧
    ¬ (InternalPam.run_pam_auth "alice" "" true true
        ⟨PAM_SUCCESS, 1, 1, ["Password: "], PAM_AUTH_ERR, PAM_CONV_ERR,
          PAM_SUCCESS, PAM_SUCCESS⟩).ret.status = 0 :=
  c7_empty_password_never_succeeds.2.2.2.2 "alice" _ (by decide) (by decide)

/-- C8, counterexample: when allocation fails inside the conversation
adapter of `src/internal/auth/pam/pam.c` and the backend propagates the
conversation failure (`PAM_CONV_ERR`), the engine classifies the outcome as
a status-2 error tagged with the verification step `pam_authenticate` and
the backend's conversation diagnostic — not as an allocation-tagged
`SystemError{Allocation}` with an allocation diagnostic. -/
theorem c8_counterexample :
    (InternalPam.run_pam_auth "alice" "hunter2" false true
        ⟨PAM_SUCCESS, 1, 1, ["Password: "], PAM_SUCCESS, PAM_CONV_ERR,
          PAM_SUCCESS, PAM_SUCCESS⟩).ret =
      ⟨2, some "pam_authenticate", some "Conversation error"⟩ ∧
    ¬ (InternalPam.run_pam_auth "alice" "hunter2" false true
        ⟨PAM_SUCCESS, 1, 1, ["Password: "], PAM_SUCCESS, PAM_CONV_ERR,
          PAM_SUCCESS, PAM_SUCCESS⟩).ret.func_name = some "malloc" ∧
    ¬ (InternalPam.run_pam_auth "alice" "hunter2" false true
        ⟨PAM_SUCCESS, 1, 1, ["Password: "], PAM_SUCCESS, PAM_CONV_ERR,
          PAM_SUCCESS, PAM_SUCCESS⟩).ret.error_msg = some "Out of memory" := by
  decide

/-- C8, amended: on allocation failure the conversation adapter does signal
the conversation-level failure code `PAM_CONV_ERR` to the backend (handing
back no responses, not crashing — the function returns normally); the
engine then classifies the propagated backend failure as status 2 tagged
`pam_authenticate` with the backend's diagnostic.  Only in the revisions
that pre-allocate the response inside the engine (`src/auth/pam/pam.c`, and
the process shape's `malloc` diagnostic) does an allocation failure surface
as an allocation-tagged status-2 error. -/
theorem c8_conv_alloc_failure_classification :
    (∀ num_msg msg p cOk,
        (InternalPam.conv_func num_msg msg p false cOk).retcode = PAM_CONV_ERR ∧
        (InternalPam.conv_func num_msg msg p false cOk).responses = []) ∧
    (∀ num_msg msg p,
        (InternalPam.conv_func num_msg msg p true false).retcode = PAM_CONV_ERR ∧
        (InternalPam.conv_func num_msg msg p true false).responses = []) ∧
    (∀ u p cOk b, b.startResult = PAM_SUCCESS → 0 < b.convInvocations →
        b.authResultConvFail = PAM_CONV_ERR →
        (InternalPam.run_pam_auth u p false cOk b).ret =
          ⟨2, some "pam_authenticate", some (pam_strerror PAM_CONV_ERR)⟩) ∧
    (∀ u p b, (AuthPam.run_pam_auth u p false b).ret =
        ⟨2, some "malloc", some "Out of memory"⟩) ∧
    (∀ stdin ru rp io b, stdin[0]? = some ru → stdin[1]? = some rp →
        b.startResult = PAM_SUCCESS →
        (HelperMain.run stdin io false b).exitCode = 2 ∧
        (HelperMain.run stdin io false b).errLines = ["malloc returned NULL"]) := by
  refine ⟨?_, ?_, ?_, ?_, ?_⟩
  · intro n m p cOk
    constructor <;> simp [InternalPam.conv_func]
  · intro n m p
    constructor <;> simp [InternalPam.conv_func]
  · intro u p cOk b hs hc hcf
    simp [InternalPam.run_pam_auth, InternalPam.effAuthResult,
      InternalPam.conv_func, hs, hc, hcf, PAM_SUCCESS, PAM_CONV_ERR,
      PAM_AUTH_ERR, PAM_USER_UNKNOWN]
  · intro u p b
    simp [AuthPam.run_pam_auth]
  · intro stdin ru rp io b h0 h1 hs
    constructor <;> simp [HelperMain.run, h0, h1, hs]

/-- C8, witness: a concrete conversation-allocation failure with the
backend propagating `PAM_CONV_ERR`. -/
theorem c8_witness :
    (InternalPam.run_pam_auth "bob" "pw" false true
        ⟨PAM_SUCCESS, 1, 1, ["Password: "], PAM_SUCCESS, PAM_CONV_ERR,
          PAM_SUCCESS, PAM_SUCCESS⟩).ret =
      ⟨2, some "pam_authenticate", some (pam_strerror PAM_CONV_ERR)⟩ :=
  c8_conv_alloc_failure_classification.2.2.1 "bob" "pw" true _
    (by decide) (by decide) (by decide)

/-- C10: in the embedded-call shape, every status-1 (rejected) result still
carries a populated `func_name` naming the backend operation that rejected
(`pam_authenticate` or `pam_acct_mgmt`) and an `error_msg` holding the
backend diagnostic for the specific rejecting code. -/
theorem c10_rejection_keeps_backend_detail :
    ∀ (u p : String) (rOk cOk : Bool) (b : Backend),
      ((InternalPam.run_pam_auth u p rOk cOk b).ret.status = 1 →
        ((InternalPam.run_pam_auth u p rOk cOk b).ret =
            ⟨1, some "pam_authenticate",
              some (pam_strerror (InternalPam.effAuthResult p rOk cOk b))⟩ ∧
          (InternalPam.effAuthResult p rOk cOk b = PAM_AUTH_ERR ∨
            InternalPam.effAuthResult p rOk cOk b = PAM_USER_UNKNOWN)) ∨
        ((InternalPam.run_pam_auth u p rOk cOk b).ret =
            ⟨1, some "pam_acct_mgmt", some (pam_strerror b.acctResult)⟩ ∧
          (b.acctResult = PAM_AUTH_ERR ∨ b.acctResult = PAM_USER_UNKNOWN ∨
            b.acctResult = PAM_NEW_AUTHTOK_REQD))) ∧
      (∀ mOk, (AuthPam.run_pam_auth u p mOk b).ret.status = 1 →
        (AuthPam.run_pam_auth u p mOk b).ret =
          ⟨1, some "pam_authenticate", some (pam_strerror b.authResult)⟩ ∧
        (b.authResult = PAM_AUTH_ERR ∨ b.authResult = PAM_USER_UNKNOWN)) := by
  intro u p rOk cOk b
  constructor
  · intro h1
    simp only [InternalPam.run_pam_auth] at h1 ⊢
    split_ifs at h1 ⊢ with hs hz hrej hacctz hacctrej hend <;>
      simp_all
  · intro mOk h1
    cases mOk <;>
      simp only [AuthPam.run_pam_auth] at h1 ⊢ <;>
      split_ifs at h1 ⊢ with hs hz hrej hend <;>
      simp_all

/-- C10, witness: a concrete unknown-user rejection carries the
`pam_authenticate` tag and the backend's user-unknown diagnostic. -/
theorem c10_witness :
    (InternalPam.run_pam_auth "ghost" "pw" true true
        ⟨PAM_SUCCESS, 1, 1, ["Password: "], PAM_USER_UNKNOWN, PAM_CONV_ERR,
          PAM_SUCCESS, PAM_SUCCESS⟩).ret =
        ⟨1, some "pam_authenticate",
          some (pam_strerror (InternalPam.effAuthResult "pw" true true
            ⟨PAM_SUCCESS, 1, 1, ["Password: "], PAM_USER_UNKNOWN, PAM_CONV_ERR,
              PAM_SUCCESS, PAM_SUCCESS⟩))⟩ ∧
      (InternalPam.effAuthResult "pw" true true
          ⟨PAM_SUCCESS, 1, 1, ["Password: "], PAM_USER_UNKNOWN, PAM_CONV_ERR,
            PAM_SUCCESS, PAM_SUCCESS⟩ = PAM_AUTH_ERR ∨
        InternalPam.effAuthResult "pw" true true
          ⟨PAM_SUCCESS, 1, 1, ["Password: "], PAM_USER_UNKNOWN, PAM_CONV_ERR,
            PAM_SUCCESS, PAM_SUCCESS⟩ = PAM_USER_UNKNOWN) :=
  ((c10_rejection_keeps_backend_detail "ghost" "pw" true true
      ⟨PAM_SUCCESS, 1, 1, ["Password: "], PAM_USER_UNKNOWN, PAM_CONV_ERR,
        PAM_SUCCESS, PAM_SUCCESS⟩).1 (by decide)).resolve_right (by decide)
